import Mathlib

/-!
# Verification of the Products & Posts CRUD API

A shallow embedding of the Django/DRF application in this repository:
the `Post` model (`posts/models.py`), its serializer (`posts/serializers.py`),
the seven generic view classes (`posts/views.py`, `products/views.py`), the
URL configurations (`posts/urls.py`, `products/urls.py`, `config/urls.py`)
and the relevant framework semantics (DRF permission classes and the
dispatch order of `APIView.dispatch`: permissions are checked in
`initial()` before the handler runs).

Machine integers are modelled as `Nat`; timestamps as `Nat` ticks.
-/

namespace DjangoApp

/-! ## Users and requests

Django attaches a user object to every request; an unauthenticated request
carries the `AnonymousUser`, for which both `is_authenticated` and
`is_staff` are false. -/

structure User where
  is_authenticated : Bool
  is_staff : Bool
deriving DecidableEq, Repr

/-- Django's `AnonymousUser`: not authenticated, not staff. -/
def anonymousUser : User := ⟨false, false⟩

/-- HTTP methods relevant to the generic views. -/
inductive Method
  | GET | HEAD | OPTIONS | POST | PUT | PATCH | DELETE
deriving DecidableEq, Repr

/-- DRF `SAFE_METHODS = ('GET', 'HEAD', 'OPTIONS')`. -/
def Method.isSafe : Method → Bool
  | .GET => true
  | .HEAD => true
  | .OPTIONS => true
  | _ => false

/-! ## Permission classes

The three DRF permission classes used by the views in this repository
(`AllowAny`, `IsAdminUser`, `IsAuthenticatedOrReadOnly`), embedded from
`rest_framework/permissions.py`. -/

inductive Permission
  | allowAny
  | isAdminUser
  | isAuthenticatedOrReadOnly
deriving DecidableEq, Repr

/-- `has_permission(request, view)` of each permission class:
`AllowAny` returns True; `IsAdminUser` returns
`bool(request.user and request.user.is_staff)`;
`IsAuthenticatedOrReadOnly` returns
`bool(request.method in SAFE_METHODS or (request.user and request.user.is_authenticated))`. -/
def Permission.hasPermission : Permission → User → Method → Bool
  | .allowAny, _, _ => true
  | .isAdminUser, u, _ => u.is_staff
  | .isAuthenticatedOrReadOnly, u, m => m.isSafe || u.is_authenticated

/-! ## Models

`posts/models.py` declares
`class Post(models.Model)` with `name = models.CharField(max_length=100)`,
`message = models.TextField()`,
`created_at = models.DateTimeField(auto_now_add=True)`.
Django adds an implicit integer primary key `id`. -/

/-- `max_length` of `Post.name` as declared in `posts/models.py`. -/
def Post.name_max_length : Nat := 100

structure Post where
  id : Nat
  name : String
  message : String
  created_at : Nat
deriving DecidableEq, Repr

/-- Modelled from the spec: `products/models.py` is not among the source
files (only `products/views.py` and `products/urls.py` are). The spec
describes `Product` as an entity "with a slug-based lookup", "a handful of
scalar fields and a server-assigned creation timestamp"; the views'
`lookup_field = 'slug'` and the URL converter `<slug:slug>` confirm the
slug field. -/
structure Product where
  id : Nat
  slug : String
  name : String
  created_at : Nat
deriving DecidableEq, Repr

/-! ## Views

Each of the seven view classes declares a queryset (`Model.objects.all()`),
a serializer class, a permission-class list, and (for the slug-based
product detail views) `lookup_field = 'slug'`; DRF's default
`lookup_field` is `'pk'`. -/

/-- Which model a view's queryset ranges over. -/
inductive Resource
  | product
  | post
deriving DecidableEq, Repr

/-- DRF `lookup_field`: the model field used by `get_object` to select the
record for detail operations. -/
inductive LookupField
  | pk
  | slug
deriving DecidableEq, Repr

/-- The five generic CRUD operations. -/
inductive Operation
  | list
  | create
  | retrieve
  | update
  | destroy
deriving DecidableEq, Repr

/-- The HTTP method through which each generic view operation is invoked. -/
def Operation.method : Operation → Method
  | .list => .GET
  | .retrieve => .GET
  | .create => .POST
  | .update => .PUT
  | .destroy => .DELETE

structure GenericView where
  resource : Resource
  operations : List Operation
  lookup_field : LookupField
  permission_classes : List Permission
deriving DecidableEq, Repr

/-- DRF `APIView.check_permissions`: every permission class must allow. -/
def GenericView.checkPermissions (v : GenericView) (u : User) (m : Method) : Bool :=
  v.permission_classes.all (fun p => p.hasPermission u m)

/-- `class ListProductAPIView(ListAPIView)` in `products/views.py`. -/
def ListProductAPIView : GenericView :=
  ⟨.product, [.list], .pk, [.allowAny]⟩

/-- `class RetrieveProductAPIView(RetrieveAPIView)` with
`lookup_field = 'slug'` in `products/views.py`. -/
def RetrieveProductAPIView : GenericView :=
  ⟨.product, [.retrieve], .slug, [.allowAny]⟩

/-- `class CreateProductAPIView(CreateAPIView)` in `products/views.py`. -/
def CreateProductAPIView : GenericView :=
  ⟨.product, [.create], .pk, [.isAdminUser]⟩

/-- `class UpdateProductAPIView(UpdateAPIView)` with
`lookup_field = 'slug'` in `products/views.py`. -/
def UpdateProductAPIView : GenericView :=
  ⟨.product, [.update], .slug, [.isAdminUser]⟩

/-- `class DestroyProductAPIView(DestroyAPIView)` with
`lookup_field = 'slug'` in `products/views.py`. -/
def DestroyProductAPIView : GenericView :=
  ⟨.product, [.destroy], .slug, [.isAdminUser]⟩

/-- `class ListCreatePostAPIView(ListCreateAPIView)` in `posts/views.py`. -/
def ListCreatePostAPIView : GenericView :=
  ⟨.post, [.list, .create], .pk, [.isAuthenticatedOrReadOnly]⟩

/-- `class RetrieveUpdateDestroyPostAPIView(RetrieveUpdateDestroyAPIView)`
in `posts/views.py`. -/
def RetrieveUpdateDestroyPostAPIView : GenericView :=
  ⟨.post, [.retrieve, .update, .destroy], .pk, [.isAuthenticatedOrReadOnly]⟩

def productViews : List GenericView :=
  [ListProductAPIView, RetrieveProductAPIView, CreateProductAPIView,
   UpdateProductAPIView, DestroyProductAPIView]

def postViews : List GenericView :=
  [ListCreatePostAPIView, RetrieveUpdateDestroyPostAPIView]

def allViews : List GenericView := productViews ++ postViews

/-! ## Serializers

`posts/serializers.py` declares
`class PostSerializer(serializers.ModelSerializer)` with `model = Post`
and `fields = '__all__'`. A `ModelSerializer` over `Post` with all fields
yields: `id` (read-only `IntegerField`, the primary key), `name`
(`CharField`, required, `allow_blank=False`, `max_length=100`), `message`
(`CharField` from `TextField`, required, `allow_blank=False`), and
`created_at` (read-only `DateTimeField`, because `auto_now_add=True`). -/

/-- A JSON scalar in a serialized representation. -/
inductive FieldValue
  | int (n : Nat)
  | str (s : String)
  | datetime (t : Nat)
deriving DecidableEq, Repr

/-- A wire representation: an ordered list of field-name/value pairs. -/
abbrev Representation := List (String × FieldValue)

/-- Look a field up in a wire representation. -/
def Representation.getField (r : Representation) (k : String) : Option FieldValue :=
  (List.find? (fun p => p.1 == k) r).map Prod.snd

/-- `PostSerializer` serialization (`to_representation`): emits every model
field with its stored value, in model-declaration order. -/
def PostSerializer.to_representation (p : Post) : Representation :=
  [("id", .int p.id), ("name", .str p.name),
   ("message", .str p.message), ("created_at", .datetime p.created_at)]

/-- Incoming wire data for a Post write. Fields absent from the JSON body
are `none`. `id` and `created_at` may be supplied by the client but the
serializer treats them as read-only. -/
structure PostInput where
  id : Option Nat := none
  name : Option String := none
  message : Option String := none
  created_at : Option Nat := none
deriving DecidableEq, Repr

/-- The validated data of `PostSerializer`: only the writable fields
(`name`, `message`) survive validation; read-only fields are dropped. -/
structure PostValidated where
  name : String
  message : String
deriving DecidableEq, Repr

/-- One field-validation step of a required, non-blank `CharField` with an
optional `max_length`, as DRF runs it: required check, blank check, then
the `MaxLengthValidator`. -/
def CharField.run_validation (field : String) (maxLen : Option Nat) :
    Option String → Except String String
  | none => .error (field ++ ": This field is required.")
  | some s =>
    if s = "" then .error (field ++ ": This field may not be blank.")
    else match maxLen with
      | some n =>
        if s.length > n then
          .error (field ++ ": Ensure this field has no more than " ++
            toString n ++ " characters.")
        else .ok s
      | none => .ok s

/-- `PostSerializer` deserialization (`is_valid` / `validated_data`):
read-only fields (`id`, `created_at`) are ignored, the writable fields are
validated by their field types. -/
def PostSerializer.run_validation (d : PostInput) : Except String PostValidated := do
  let n ← CharField.run_validation "name" (some Post.name_max_length) d.name
  let m ← CharField.run_validation "message" none d.message
  pure ⟨n, m⟩

/-- Modelled from the spec: `products/serializers.py` is not among the
source files. The spec says serialization "is a 1:1 passthrough of model
fields to/from a wire representation"; incoming Product data carries the
writable scalar fields. -/
structure ProductInput where
  slug : Option String := none
  name : Option String := none
deriving DecidableEq, Repr

/-- Modelled from the spec: validation of `ProductSerializer` is the
field-type validation its model fields imply, like `PostSerializer`'s. -/
def ProductSerializer.run_validation (d : ProductInput) :
    Except String (String × String) := do
  let s ← CharField.run_validation "slug" (some 50) d.slug
  let n ← CharField.run_validation "name" (some 100) d.name
  pure (s, n)

/-- Modelled from the spec: `ProductSerializer` serialization is a 1:1
passthrough of the Product model fields. -/
def ProductSerializer.to_representation (p : Product) : Representation :=
  [("id", .int p.id), ("slug", .str p.slug),
   ("name", .str p.name), ("created_at", .datetime p.created_at)]

/-! ## Persistent state and handlers

The SQLite database holds the two tables. Auto-increment primary keys are
one more than the largest key in the table, starting at 1. -/

structure DB where
  posts : List Post
  products : List Product
deriving DecidableEq, Repr

def nextPostId (posts : List Post) : Nat :=
  (posts.map Post.id).foldr max 0 + 1

def nextProductId (products : List Product) : Nat :=
  (products.map Product.id).foldr max 0 + 1

/-- DRF `get_object` over `Post.objects.all()` with the default
`lookup_field = 'pk'`: the record whose primary key equals the captured
URL argument. -/
def getPostByPk (db : DB) (pk : Nat) : Option Post :=
  db.posts.find? (fun p => p.id == pk)

/-- DRF `get_object` over `Product.objects.all()` with
`lookup_field = 'slug'`: the record whose slug equals the captured URL
argument. -/
def getProductBySlug (db : DB) (slug : String) : Option Product :=
  db.products.find? (fun p => p.slug == slug)

/-- `ModelSerializer.create` for a Post: the new row gets the next primary
key, the validated writable fields, and — because of `auto_now_add=True` —
the server clock as `created_at`, whatever the client sent. -/
def createPost (db : DB) (v : PostValidated) (now : Nat) : Post :=
  ⟨nextPostId db.posts, v.name, v.message, now⟩

/-- `ModelSerializer.update` for a Post: the writable fields are set from
the validated data; `auto_now_add` fields are untouched on save. -/
def updatePost (p : Post) (v : PostValidated) : Post :=
  { p with name := v.name, message := v.message }

/-- Modelled from the spec: creation of a Product row, with the
server-assigned creation timestamp the spec describes. -/
def createProduct (db : DB) (v : String × String) (now : Nat) : Product :=
  ⟨nextProductId db.products, v.1, v.2, now⟩

/-- Modelled from the spec: update of a Product row's writable scalar
fields; the creation timestamp is server-assigned and not writable. -/
def updateProduct (p : Product) (v : String × String) : Product :=
  { p with slug := v.1, name := v.2 }

/-- The URL-captured lookup argument of a detail route: `<int:pk>` for
posts, `<slug:slug>` for products; collection routes capture nothing. -/
inductive Key
  | pkKey (pk : Nat)
  | slugKey (s : String)
  | noKey
deriving DecidableEq, Repr

/-- The JSON body of a write request. -/
inductive Body
  | postBody (d : PostInput)
  | productBody (d : ProductInput)
  | noBody
deriving DecidableEq, Repr

/-- HTTP-level outcome of a request. -/
inductive Response
  | ok (body : Representation)
  | okList (body : List Representation)
  | createdRes (body : Representation)
  | noContent
  | notFound
  | badRequest (error : String)
  | methodNotAllowed
  | denied (authenticated : Bool)
deriving DecidableEq, Repr

/-- The handler of each generic Post view operation, acting only on the
`Post.objects.all()` queryset through `PostSerializer`. -/
def handlePost (op : Operation) (key : Key) (body : Body) (now : Nat)
    (db : DB) : DB × Response :=
  match op with
  | .list => (db, .okList (db.posts.map PostSerializer.to_representation))
  | .create =>
    match body with
    | .postBody d =>
      match PostSerializer.run_validation d with
      | .ok v =>
        let p := createPost db v now
        ({ db with posts := db.posts ++ [p] },
         .createdRes (PostSerializer.to_representation p))
      | .error e => (db, .badRequest e)
    | _ => (db, .badRequest "Invalid data.")
  | .retrieve =>
    match key with
    | .pkKey pk =>
      match getPostByPk db pk with
      | some p => (db, .ok (PostSerializer.to_representation p))
      | none => (db, .notFound)
    | _ => (db, .notFound)
  | .update =>
    match key, body with
    | .pkKey pk, .postBody d =>
      match getPostByPk db pk with
      | some p =>
        match PostSerializer.run_validation d with
        | .ok v =>
          let p' := updatePost p v
          ({ db with
              posts := db.posts.map (fun q => if q.id == pk then p' else q) },
           .ok (PostSerializer.to_representation p'))
        | .error e => (db, .badRequest e)
      | none => (db, .notFound)
    | _, _ => (db, .notFound)
  | .destroy =>
    match key with
    | .pkKey pk =>
      match getPostByPk db pk with
      | some _ =>
        ({ db with posts := db.posts.filter (fun q => q.id != pk) },
         .noContent)
      | none => (db, .notFound)
    | _ => (db, .notFound)

/-- The handler of each generic Product view operation, acting only on the
`Product.objects.all()` queryset through `ProductSerializer`. -/
def handleProduct (op : Operation) (key : Key) (body : Body) (now : Nat)
    (db : DB) : DB × Response :=
  match op with
  | .list => (db, .okList (db.products.map ProductSerializer.to_representation))
  | .create =>
    match body with
    | .productBody d =>
      match ProductSerializer.run_validation d with
      | .ok v =>
        let p := createProduct db v now
        ({ db with products := db.products ++ [p] },
         .createdRes (ProductSerializer.to_representation p))
      | .error e => (db, .badRequest e)
    | _ => (db, .badRequest "Invalid data.")
  | .retrieve =>
    match key with
    | .slugKey s =>
      match getProductBySlug db s with
      | some p => (db, .ok (ProductSerializer.to_representation p))
      | none => (db, .notFound)
    | _ => (db, .notFound)
  | .update =>
    match key, body with
    | .slugKey s, .productBody d =>
      match getProductBySlug db s with
      | some p =>
        match ProductSerializer.run_validation d with
        | .ok v =>
          let p' := updateProduct p v
          ({ db with
              products :=
                db.products.map (fun q => if q.id == p.id then p' else q) },
           .ok (ProductSerializer.to_representation p'))
        | .error e => (db, .badRequest e)
      | none => (db, .notFound)
    | _, _ => (db, .notFound)
  | .destroy =>
    match key with
    | .slugKey s =>
      match getProductBySlug db s with
      | some p =>
        ({ db with products := db.products.filter (fun q => q.id != p.id) },
         .noContent)
      | none => (db, .notFound)
    | _ => (db, .notFound)

/-- `APIView.dispatch`: `initial()` runs `check_permissions` first — a
denied request gets a 401/403 (401 when unauthenticated, 403 otherwise)
and the handler never runs; then the handler for the request method is
resolved (405 when the view does not implement the operation) and
executed. -/
def dispatch (v : GenericView) (op : Operation) (u : User) (key : Key)
    (body : Body) (now : Nat) (db : DB) : DB × Response :=
  if v.checkPermissions u op.method then
    if op ∈ v.operations then
      match v.resource with
      | .post => handlePost op key body now db
      | .product => handleProduct op key body now db
    else (db, .methodNotAllowed)
  else (db, .denied u.is_authenticated)

/-! ## URL configuration

`products/urls.py`, `posts/urls.py` and the root `config/urls.py`. -/

/-- The Django path converter a route captures its argument with. -/
inductive Converter
  | intConv
  | slugConv
  | noConv
deriving DecidableEq, Repr

structure UrlPattern where
  route : String
  converter : Converter
  view : GenericView
  pattern_name : String
deriving DecidableEq, Repr

/-- `urlpatterns` of `products/urls.py`. -/
def productsUrlpatterns : List UrlPattern :=
  [⟨"products/", .noConv, ListProductAPIView, "product-list"⟩,
   ⟨"products/create", .noConv, CreateProductAPIView, "product-create"⟩,
   ⟨"products/retrieve/<slug:slug>", .slugConv, RetrieveProductAPIView,
    "product-retrieve"⟩,
   ⟨"products/update/<slug:slug>", .slugConv, UpdateProductAPIView,
    "product-update"⟩,
   ⟨"products/destroy/<slug:slug>", .slugConv, DestroyProductAPIView,
    "product-destroy"⟩]

/-- `urlpatterns` of `posts/urls.py`. -/
def postsUrlpatterns : List UrlPattern :=
  [⟨"posts/", .noConv, ListCreatePostAPIView, "post-list-create"⟩,
   ⟨"posts/<int:pk>", .intConv, RetrieveUpdateDestroyPostAPIView,
    "post-retreive-update-destroy"⟩]

/-- The target of a root URL entry in `config/urls.py`: either an include
of an app's urlconf, the admin site, or a view class imported directly from
`rest_framework_simplejwt.views` / `drf_spectacular.views` (the repository
defines no subclass of any of them; the Swagger/ReDoc views receive only
the documented `url_name` argument). -/
inductive RootTarget
  | adminSiteUrls
  | includeProductUrls
  | includePostUrls
  | tokenObtainPairView
  | tokenRefreshView
  | spectacularAPIView
  | spectacularSwaggerView (url_name : String)
  | spectacularRedocView (url_name : String)
deriving DecidableEq, Repr

/-- Whether a root URL entry is served by a third-party framework view
rather than by code of this repository. -/
def RootTarget.isThirdPartyFrameworkView : RootTarget → Bool
  | .tokenObtainPairView => true
  | .tokenRefreshView => true
  | .spectacularAPIView => true
  | .spectacularSwaggerView _ => true
  | .spectacularRedocView _ => true
  | _ => false

/-- `urlpatterns` of `config/urls.py`. -/
def configUrlpatterns : List (String × RootTarget) :=
  [("admin/", .adminSiteUrls),
   ("api/", .includeProductUrls),
   ("api/", .includePostUrls),
   ("api/token/", .tokenObtainPairView),
   ("api/token/refresh/", .tokenRefreshView),
   ("api/schema/", .spectacularAPIView),
   ("api/docs/", .spectacularSwaggerView "schema"),
   ("api/redoc/", .spectacularRedocView "schema")]

/-- `SIMPLE_JWT` in `config/settings.py`: declarative configuration of the
third-party JWT component. -/
structure SimpleJWTSettings where
  access_token_lifetime_minutes : Nat
  refresh_token_lifetime_days : Nat
  auth_header_types : List String
deriving DecidableEq, Repr

def SIMPLE_JWT : SimpleJWTSettings := ⟨30, 1, ["Bearer"]⟩

/-- `SPECTACULAR_SETTINGS` in `config/settings.py`: declarative
configuration of the schema generator. -/
structure SpectacularSettings where
  title : String
  description : String
  version : String
deriving DecidableEq, Repr

def SPECTACULAR_SETTINGS : SpectacularSettings :=
  ⟨"My API", "Products & Posts API", "1.0.0"⟩

/-! ## Sample data used by witnesses -/

def samplePost : Post := ⟨1, "hello", "world", 5⟩

def sampleProduct : Product := ⟨1, "widget", "Widget", 3⟩

def sampleDB : DB := ⟨[samplePost], [sampleProduct]⟩

/-! ## Helper lemmas -/

theorem charField_max_ok_iff (f : String) (maxLen : Nat)
    (o : Option String) (s : String) :
    CharField.run_validation f (some maxLen) o = .ok s ↔
      o = some s ∧ s ≠ "" ∧ s.length ≤ maxLen := by
  cases o with
  | none => simp [CharField.run_validation]
  | some t =>
    simp only [CharField.run_validation]
    by_cases ht : t = ""
    · rw [if_pos ht]
      constructor
      · intro h; exact Except.noConfusion h
      · rintro ⟨hts, hs, _⟩
        obtain rfl : t = s := Option.some.inj hts
        exact absurd ht hs
    · rw [if_neg ht]
      by_cases hl : t.length > maxLen
      · rw [if_pos hl]
        constructor
        · intro h; exact Except.noConfusion h
        · rintro ⟨hts, _, hlen⟩
          obtain rfl : t = s := Option.some.inj hts
          omega
      · rw [if_neg hl]
        constructor
        · intro h
          obtain rfl : t = s := Except.ok.inj h
          exact ⟨rfl, ht, by omega⟩
        · rintro ⟨hts, _, _⟩
          obtain rfl : t = s := Option.some.inj hts
          rfl

theorem charField_noMax_ok_iff (f : String) (o : Option String) (s : String) :
    CharField.run_validation f none o = .ok s ↔
      o = some s ∧ s ≠ "" := by
  cases o with
  | none => simp [CharField.run_validation]
  | some t =>
    simp only [CharField.run_validation]
    by_cases ht : t = ""
    · rw [if_pos ht]
      constructor
      · intro h; exact Except.noConfusion h
      · rintro ⟨hts, hs⟩
        obtain rfl : t = s := Option.some.inj hts
        exact absurd ht hs
    · rw [if_neg ht]
      constructor
      · intro h
        obtain rfl : t = s := Except.ok.inj h
        exact ⟨rfl, ht⟩
      · rintro ⟨hts, _⟩
        obtain rfl : t = s := Option.some.inj hts
        rfl

theorem postValidation_ok_iff (d : PostInput) (v : PostValidated) :
    PostSerializer.run_validation d = .ok v ↔
      d.name = some v.name ∧ d.message = some v.message ∧
      v.name ≠ "" ∧ v.name.length ≤ Post.name_max_length ∧
      v.message ≠ "" := by
  unfold PostSerializer.run_validation
  cases hn : CharField.run_validation "name" (some Post.name_max_length) d.name with
  | error e =>
    simp only [hn, bind, Except.bind]
    constructor
    · intro h; exact Except.noConfusion h
    · rintro ⟨h1, _, h3, h4, _⟩
      rw [(charField_max_ok_iff "name" Post.name_max_length d.name v.name).2
        ⟨h1, h3, h4⟩] at hn
      exact Except.noConfusion hn
  | ok n =>
    have hn' := (charField_max_ok_iff _ _ _ _).1 hn
    cases hm : CharField.run_validation "message" none d.message with
    | error e =>
      simp only [hn, hm, bind, Except.bind]
      constructor
      · intro h; exact Except.noConfusion h
      · rintro ⟨_, h2, _, _, h5⟩
        rw [(charField_noMax_ok_iff "message" d.message v.message).2
          ⟨h2, h5⟩] at hm
        exact Except.noConfusion hm
    | ok m =>
      have hm' := (charField_noMax_ok_iff _ _ _).1 hm
      simp only [hn, hm, bind, Except.bind, pure, Except.pure]
      constructor
      · rintro h
        obtain rfl : (⟨n, m⟩ : PostValidated) = v := Except.ok.inj h
        exact ⟨hn'.1, hm'.1, hn'.2.1, hn'.2.2, hm'.2⟩
      · rintro ⟨h1, h2, _, _, _⟩
        rw [hn'.1] at h1
        rw [hm'.1] at h2
        obtain rfl : n = v.name := Option.some.inj h1
        obtain rfl : m = v.message := Option.some.inj h2
        rfl

theorem handlePost_preserves_products (op : Operation) (key : Key)
    (body : Body) (now : Nat) (db : DB) :
    (handlePost op key body now db).1.products = db.products := by
  cases op <;> simp only [handlePost] <;> (repeat' split) <;> rfl

theorem handleProduct_preserves_posts (op : Operation) (key : Key)
    (body : Body) (now : Nat) (db : DB) :
    (handleProduct op key body now db).1.posts = db.posts := by
  cases op <;> simp only [handleProduct] <;> (repeat' split) <;> rfl

/-! ## Claim theorems -/

/-- C1: Every Product detail operation (retrieve, update, destroy) selects
the record by its slug field — the three product detail views declare
`lookup_field = 'slug'`, their routes capture a `<slug:slug>` argument, and
the selected record's slug equals the captured argument — while the Post
detail operations select by integer primary key: the combined
retrieve/update/destroy view keeps the default `lookup_field = 'pk'`, its
route captures `<int:pk>`, and the selected record's id equals the
captured argument. No Product detail view uses `pk` and no Post detail
view uses `slug`. -/
theorem product_detail_by_slug_post_detail_by_pk :
    (RetrieveProductAPIView.lookup_field = .slug ∧
     UpdateProductAPIView.lookup_field = .slug ∧
     DestroyProductAPIView.lookup_field = .slug ∧
     RetrieveUpdateDestroyPostAPIView.lookup_field = .pk) ∧
    (productsUrlpatterns.map UrlPattern.converter =
       [.noConv, .noConv, .slugConv, .slugConv, .slugConv] ∧
     postsUrlpatterns.map UrlPattern.converter = [.noConv, .intConv]) ∧
    (∀ db s p, getProductBySlug db s = some p → p.slug = s) ∧
    (∀ db n p, getPostByPk db n = some p → p.id = n) := by
  refine ⟨⟨rfl, rfl, rfl, rfl⟩, ⟨by decide, by decide⟩, ?_, ?_⟩
  · intro db s p h
    simpa using List.find?_some h
  · intro db n p h
    simpa using List.find?_some h

/-- Witness for C1 at a concrete database. -/
theorem product_detail_by_slug_post_detail_by_pk_witness :
    sampleProduct.slug = "widget" ∧ samplePost.id = 1 :=
  ⟨product_detail_by_slug_post_detail_by_pk.2.2.1 sampleDB "widget"
     sampleProduct (by decide),
   product_detail_by_slug_post_detail_by_pk.2.2.2 sampleDB 1
     samplePost (by decide)⟩

/-- C8: Each resource exposes exactly the five CRUD endpoint shapes and no
others: the two Post routes (collection, detail) carry list+create and
retrieve+update+destroy respectively, the five Product routes each carry a
single operation, the operations across each resource's routes are exactly
list, create, retrieve, update, destroy — each once — and the routes are
pairwise distinct. -/
theorem five_endpoint_shapes :
    postsUrlpatterns.length = 2 ∧
    productsUrlpatterns.length = 5 ∧
    postsUrlpatterns.map (fun e => e.view.operations) =
      [[.list, .create], [.retrieve, .update, .destroy]] ∧
    productsUrlpatterns.map (fun e => e.view.operations) =
      [[.list], [.create], [.retrieve], [.update], [.destroy]] ∧
    (postsUrlpatterns.map (fun e => e.view.operations)).flatten =
      [.list, .create, .retrieve, .update, .destroy] ∧
    (productsUrlpatterns.map (fun e => e.view.operations)).flatten =
      [.list, .create, .retrieve, .update, .destroy] ∧
    (postsUrlpatterns.map UrlPattern.route).Nodup ∧
    (productsUrlpatterns.map UrlPattern.route).Nodup := by
  decide

/-- C2: Product reads (list, retrieve) are permitted for every requester,
anonymous ones included; Product writes (create, update, destroy) are
permitted exactly when the requester is an admin (staff) user; and a
non-admin write request is answered with a denial while the stored state
is exactly what it was. -/
theorem product_permission_policy :
    (∀ u m, ListProductAPIView.checkPermissions u m = true) ∧
    (∀ u m, RetrieveProductAPIView.checkPermissions u m = true) ∧
    (∀ u m, CreateProductAPIView.checkPermissions u m = u.is_staff) ∧
    (∀ u m, UpdateProductAPIView.checkPermissions u m = u.is_staff) ∧
    (∀ u m, DestroyProductAPIView.checkPermissions u m = u.is_staff) ∧
    (∀ v, (v = CreateProductAPIView ∨ v = UpdateProductAPIView ∨
        v = DestroyProductAPIView) →
      ∀ op u key body now db, u.is_staff = false →
        dispatch v op u key body now db = (db, .denied u.is_authenticated)) := by
  refine ⟨?_, ?_, ?_, ?_, ?_, ?_⟩
  · intro u m
    simp [GenericView.checkPermissions, Permission.hasPermission,
      ListProductAPIView]
  · intro u m
    simp [GenericView.checkPermissions, Permission.hasPermission,
      RetrieveProductAPIView]
  · intro u m
    simp [GenericView.checkPermissions, Permission.hasPermission,
      CreateProductAPIView]
  · intro u m
    simp [GenericView.checkPermissions, Permission.hasPermission,
      UpdateProductAPIView]
  · intro u m
    simp [GenericView.checkPermissions, Permission.hasPermission,
      DestroyProductAPIView]
  · rintro v (rfl | rfl | rfl) op u key body now db hs <;>
      simp [dispatch, GenericView.checkPermissions, Permission.hasPermission,
        CreateProductAPIView, UpdateProductAPIView, DestroyProductAPIView, hs]

/-- Witness for C2: an anonymous create request against Products is denied
and the database is untouched. -/
theorem product_permission_policy_witness :
    dispatch CreateProductAPIView .create anonymousUser .noKey .noBody 0
      sampleDB = (sampleDB, .denied anonymousUser.is_authenticated) :=
  product_permission_policy.2.2.2.2.2 CreateProductAPIView (Or.inl rfl)
    .create anonymousUser .noKey .noBody 0 sampleDB rfl

/-- C3: Post reads (list, retrieve — GET requests) are permitted for every
requester, anonymous ones included; Post writes (create, update, destroy)
are permitted exactly when the requester is authenticated; and an
unauthenticated write request is answered with a denial while the stored
state is exactly what it was. -/
theorem post_permission_policy :
    (∀ u, ListCreatePostAPIView.checkPermissions u Operation.list.method = true) ∧
    (∀ u, RetrieveUpdateDestroyPostAPIView.checkPermissions u
        Operation.retrieve.method = true) ∧
    (∀ u, ListCreatePostAPIView.checkPermissions u Operation.create.method =
        u.is_authenticated) ∧
    (∀ u, RetrieveUpdateDestroyPostAPIView.checkPermissions u
        Operation.update.method = u.is_authenticated) ∧
    (∀ u, RetrieveUpdateDestroyPostAPIView.checkPermissions u
        Operation.destroy.method = u.is_authenticated) ∧
    (∀ v op u key body now db,
      (v = ListCreatePostAPIView ∨ v = RetrieveUpdateDestroyPostAPIView) →
      op.method.isSafe = false → u.is_authenticated = false →
      dispatch v op u key body now db = (db, .denied false)) := by
  refine ⟨?_, ?_, ?_, ?_, ?_, ?_⟩
  · intro u
    simp [GenericView.checkPermissions, Permission.hasPermission,
      ListCreatePostAPIView, Operation.method, Method.isSafe]
  · intro u
    simp [GenericView.checkPermissions, Permission.hasPermission,
      RetrieveUpdateDestroyPostAPIView, Operation.method, Method.isSafe]
  · intro u
    simp [GenericView.checkPermissions, Permission.hasPermission,
      ListCreatePostAPIView, Operation.method, Method.isSafe]
  · intro u
    simp [GenericView.checkPermissions, Permission.hasPermission,
      RetrieveUpdateDestroyPostAPIView, Operation.method, Method.isSafe]
  · intro u
    simp [GenericView.checkPermissions, Permission.hasPermission,
      RetrieveUpdateDestroyPostAPIView, Operation.method, Method.isSafe]
  · rintro v op u key body now db (rfl | rfl) hsafe hauth <;>
      simp [dispatch, GenericView.checkPermissions, Permission.hasPermission,
        ListCreatePostAPIView, RetrieveUpdateDestroyPostAPIView,
        hsafe, hauth]

/-- Witness for C3: an anonymous create request against Posts is denied
and the database is untouched. -/
theorem post_permission_policy_witness :
    dispatch ListCreatePostAPIView .create anonymousUser .noKey
      (.postBody ⟨none, some "a", some "b", none⟩) 0 sampleDB =
      (sampleDB, .denied false) :=
  post_permission_policy.2.2.2.2.2 ListCreatePostAPIView .create
    anonymousUser .noKey (.postBody ⟨none, some "a", some "b", none⟩) 0
    sampleDB (Or.inl rfl) rfl rfl

/-- C4: The token issuance/refresh and schema/documentation routes of
`config/urls.py` are served by views imported directly from the
third-party packages (`rest_framework_simplejwt.views`,
`drf_spectacular.views`) — the repository subclasses none of them and
passes only the documented `url_name` argument to the two documentation
UI views; the routes served by third-party views are exactly the five
token/schema/docs routes. -/
theorem token_and_schema_delegated :
    (configUrlpatterns.filter
        (fun e => RootTarget.isThirdPartyFrameworkView e.2)).map Prod.fst =
      ["api/token/", "api/token/refresh/", "api/schema/", "api/docs/",
       "api/redoc/"] ∧
    (configUrlpatterns.filter
        (fun e => RootTarget.isThirdPartyFrameworkView e.2)).map Prod.snd =
      [.tokenObtainPairView, .tokenRefreshView, .spectacularAPIView,
       .spectacularSwaggerView "schema", .spectacularRedocView "schema"] := by
  decide

/-- C5: A Post's `created_at` is controlled by the server: the serializer
ignores any client-supplied `created_at` (validation is insensitive to
it), a freshly created row carries the server clock, the create handler
stores exactly that row, and an update leaves `created_at` unchanged
whatever the input. -/
theorem post_created_at_server_controlled :
    (∀ d c, PostSerializer.run_validation { d with created_at := c } =
        PostSerializer.run_validation d) ∧
    (∀ db v now, (createPost db v now).created_at = now) ∧
    (∀ p v, (updatePost p v).created_at = p.created_at) ∧
    (∀ db d v now key, PostSerializer.run_validation d = .ok v →
      (handlePost .create key (.postBody d) now db).1.posts =
        db.posts ++ [createPost db v now]) := by
  refine ⟨?_, ?_, ?_, ?_⟩
  · intro d c
    cases d
    rfl
  · intro db v now
    rfl
  · intro p v
    rfl
  · intro db d v now key h
    simp [handlePost, h]

/-- Witness for C5: a create request carrying `created_at = 99` at server
time 7 stores a row stamped 7. -/
theorem post_created_at_server_controlled_witness :
    (handlePost .create .noKey (.postBody ⟨none, some "a", some "b", some 99⟩)
        7 sampleDB).1.posts =
      sampleDB.posts ++ [createPost sampleDB ⟨"a", "b"⟩ 7] :=
  post_created_at_server_controlled.2.2.2 sampleDB
    ⟨none, some "a", some "b", some 99⟩ ⟨"a", "b"⟩ 7 .noKey rfl

/-- C6: Serialization of a Post is a 1:1 passthrough: the wire
representation lists exactly the model's fields — id, name, message,
created_at, in that order — with their stored values and nothing else;
and deserializing a valid wire input then serializing the record created
from it round-trips the writable fields (name, message) back to the
input's values. -/
theorem post_serialization_passthrough :
    (∀ p, (PostSerializer.to_representation p).map Prod.fst =
        ["id", "name", "message", "created_at"]) ∧
    (∀ p, (PostSerializer.to_representation p).getField "id" =
          some (.int p.id) ∧
        (PostSerializer.to_representation p).getField "name" =
          some (.str p.name) ∧
        (PostSerializer.to_representation p).getField "message" =
          some (.str p.message) ∧
        (PostSerializer.to_representation p).getField "created_at" =
          some (.datetime p.created_at)) ∧
    (∀ d v, PostSerializer.run_validation d = .ok v →
        d.name = some v.name ∧ d.message = some v.message) ∧
    (∀ db d v now, PostSerializer.run_validation d = .ok v →
        (PostSerializer.to_representation (createPost db v now)).getField
            "name" = d.name.map FieldValue.str ∧
        (PostSerializer.to_representation (createPost db v now)).getField
            "message" = d.message.map FieldValue.str) := by
  refine ⟨?_, ?_, ?_, ?_⟩
  · intro p
    rfl
  · intro p
    exact ⟨rfl, rfl, rfl, rfl⟩
  · intro d v h
    have h' := (postValidation_ok_iff d v).1 h
    exact ⟨h'.1, h'.2.1⟩
  · intro db d v now h
    have h' := (postValidation_ok_iff d v).1 h
    rw [h'.1, h'.2.1]
    exact ⟨rfl, rfl⟩

/-- Witness for C6 at a concrete valid input. -/
theorem post_serialization_passthrough_witness :
    ((⟨none, some "a", some "b", none⟩ : PostInput).name = some "a" ∧
      (⟨none, some "a", some "b", none⟩ : PostInput).message = some "b") ∧
    (PostSerializer.to_representation
        (createPost sampleDB ⟨"a", "b"⟩ 7)).getField "name" =
      Option.map FieldValue.str (some "a") :=
  ⟨post_serialization_passthrough.2.2.1 ⟨none, some "a", some "b", none⟩
     ⟨"a", "b"⟩ rfl,
   (post_serialization_passthrough.2.2.2 sampleDB
     ⟨none, some "a", some "b", none⟩ ⟨"a", "b"⟩ 7 rfl).1⟩

/-- C7: For every endpoint of the application, the permission predicate
runs before the view logic: when it denies the request, the dispatch
returns a denial response and the database is exactly what it was — the
handler is never executed. -/
theorem permission_denied_blocks_handler :
    ∀ v ∈ allViews, ∀ op u key body now db,
      v.checkPermissions u op.method = false →
      dispatch v op u key body now db = (db, .denied u.is_authenticated) := by
  intro v _ op u key body now db h
  simp [dispatch, h]

/-- Witness for C7: an anonymous destroy request on a Product is denied
with the database untouched. -/
theorem permission_denied_blocks_handler_witness :
    dispatch DestroyProductAPIView .destroy anonymousUser
      (.slugKey "widget") .noBody 0 sampleDB =
      (sampleDB, .denied anonymousUser.is_authenticated) :=
  permission_denied_blocks_handler DestroyProductAPIView (by decide)
    .destroy anonymousUser (.slugKey "widget") .noBody 0 sampleDB (by decide)

/-- The acceptance predicate implied by the declared field types of the
`Post` model alone: `name` (required `CharField`, non-blank, at most
`max_length=100` characters), `message` (required `TextField`,
non-blank); `id` and `created_at` are server-controlled and unconstrained
on input. -/
def postFieldTypesAccept (d : PostInput) : Bool :=
  (match d.name with
   | some n => !(n == "") && decide (n.length ≤ Post.name_max_length)
   | none => false) &&
  (match d.message with
   | some m => !(m == "")
   | none => false)

/-- C9: Creating or updating a Post applies no validation beyond what the
field types imply: the serializer's validation succeeds exactly on the
inputs accepted by the field-type constraints of the model. -/
theorem post_validation_is_field_types_only :
    ∀ d, (∃ v, PostSerializer.run_validation d = .ok v) ↔
      postFieldTypesAccept d = true := by
  intro d
  constructor
  · rintro ⟨v, h⟩
    obtain ⟨h1, h2, h3, h4, h5⟩ := (postValidation_ok_iff d v).1 h
    rw [postFieldTypesAccept, h1, h2]
    simp [h3, h4, h5]
  · intro h
    cases hn : d.name with
    | none => rw [postFieldTypesAccept, hn] at h; simp at h
    | some n =>
      cases hm : d.message with
      | none => rw [postFieldTypesAccept, hn, hm] at h; simp at h
      | some m =>
        rw [postFieldTypesAccept, hn, hm] at h
        simp only [Bool.and_eq_true, Bool.not_eq_true', beq_eq_false_iff_ne,
          decide_eq_true_eq] at h
        exact ⟨⟨n, m⟩, (postValidation_ok_iff d ⟨n, m⟩).2
          ⟨hn, hm, h.1.1, h.1.2, h.2⟩⟩

/-- C10: Resource isolation — every request dispatched to a Product view
leaves the stored Posts exactly as they were, and every request
dispatched to a Post view leaves the stored Products exactly as they
were, whatever the operation, requester, key, body or clock. -/
theorem resource_isolation :
    (∀ v ∈ productViews, ∀ op u key body now db,
        (dispatch v op u key body now db).1.posts = db.posts) ∧
    (∀ v ∈ postViews, ∀ op u key body now db,
        (dispatch v op u key body now db).1.products = db.products) := by
  constructor
  · intro v hv op u key body now db
    fin_cases hv <;>
      · simp only [dispatch]
        split
        · split
          · exact handleProduct_preserves_posts _ _ _ _ _
          · rfl
        · rfl
  · intro v hv op u key body now db
    fin_cases hv <;>
      · simp only [dispatch]
        split
        · split
          · exact handlePost_preserves_products _ _ _ _ _
          · rfl
        · rfl

/-- Witness for C10: an admin Product create and an authenticated Post
create each leave the other resource's table untouched. -/
theorem resource_isolation_witness :
    (dispatch CreateProductAPIView .create ⟨true, true⟩ .noKey
        (.productBody ⟨some "s", some "n"⟩) 4 sampleDB).1.posts =
      sampleDB.posts ∧
    (dispatch ListCreatePostAPIView .create ⟨true, false⟩ .noKey
        (.postBody ⟨none, some "a", some "b", none⟩) 4 sampleDB).1.products =
      sampleDB.products :=
  ⟨resource_isolation.1 CreateProductAPIView (by decide) .create
     ⟨true, true⟩ .noKey (.productBody ⟨some "s", some "n"⟩) 4 sampleDB,
   resource_isolation.2 ListCreatePostAPIView (by decide) .create
     ⟨true, false⟩ .noKey (.postBody ⟨none, some "a", some "b", none⟩) 4
     sampleDB⟩

end DjangoApp
